import Mathlib

/-!
Shallow embedding of the synthetic drag-and-drop event dispatcher of the
cypress-framework repository (`cypress/support/commands.ts`, command
`dragAndDrop`), together with the other custom commands (`login`, `logout`,
`verifyFlashMessage`, `verifyFlashClass`) in both variants of the commands
file, and the page-object actions that call the dispatcher
(`cypress/pages/DragDropPage.ts`).

The DOM document is modelled as an association list of elements (element
handle ↦ element state), the `DataTransfer` container as an association list
of MIME-type keys to string payloads, and the page's event listeners as an
explicit handler function that maps a dispatched event and the current
document to the updated document and the (shared, mutable) `DataTransfer`
container's updated contents.
-/

namespace CypressFramework

/-- The state of one DOM element: its serialized inner markup (`innerHTML`)
and its attributes. -/
structure Elem where
  innerHTML : String
  attrs : List (String × String)
deriving DecidableEq, Repr

/-- The document under test: the page URL, the page script's global
`dragSrcEl` variable (the element recorded by the page's dragstart listener,
when one is pending), and the elements, keyed by element handle. -/
structure Doc where
  url : String
  dragSrc : Option Nat
  elems : List (Nat × Elem)
deriving DecidableEq, Repr

/-- Element lookup by handle: the model of resolving a selector with
`cy.get(...)`, which fails when no matching element is in the document
(a detached element is simply absent from `elems`). -/
def findElem : List (Nat × Elem) → Nat → Option Elem
  | [], _ => none
  | (j, e) :: rest, i => if j = i then some e else findElem rest i

/-- Resolution of an element handle on a document (the model of `cy.get`). -/
def Doc.find (d : Doc) (i : Nat) : Option Elem :=
  findElem d.elems i

/-- Assignment `el.innerHTML = h` on the (first) element with handle `i`. -/
def setHTML : List (Nat × Elem) → Nat → String → List (Nat × Elem)
  | [], _, _ => []
  | (j, e) :: rest, i, h =>
      if j = i then (j, { e with innerHTML := h }) :: rest
      else (j, e) :: setHTML rest i h

/-- Assignment `el.innerHTML = h` lifted to documents. -/
def Doc.setInnerHTML (d : Doc) (i : Nat) (h : String) : Doc :=
  { d with elems := setHTML d.elems i h }

/-- The native `DataTransfer` container: MIME-type keys mapped to string
payloads (`new DataTransfer()` starts empty). -/
structure DataTransfer where
  entries : List (String × String)
deriving DecidableEq, Repr

/-- Construction of an empty container, `new DataTransfer()`. -/
def DataTransfer.mk0 : DataTransfer := ⟨[]⟩

/-- Model of `dataTransfer.setData(key, value)`: replaces any existing
payload under `key` with `value`. -/
def DataTransfer.setData (dt : DataTransfer) (k v : String) : DataTransfer :=
  ⟨(k, v) :: dt.entries.filter (fun p => p.1 ≠ k)⟩

/-- Model of `dataTransfer.getData(key)`: the payload stored under `key`, or
the empty string when none is stored. -/
def DataTransfer.getData (dt : DataTransfer) (k : String) : String :=
  match dt.entries.find? (fun p => p.1 = k) with
  | some p => p.2
  | none => ""

/-- The four drag event types dispatched by the command. -/
inductive DragEventType
  | dragstart
  | dragover
  | drop
  | dragend
deriving DecidableEq, Repr

/-- A dispatched `DragEvent`: its type, the contents of the `DataTransfer`
container it carries at dispatch time, and its `bubbles` flag. -/
structure DragEvent where
  type : DragEventType
  dataTransfer : DataTransfer
  bubbles : Bool
deriving DecidableEq, Repr

/-- One entry of the dispatch trace: the element handle the event was
dispatched on, and the event itself. -/
structure Dispatched where
  target : Nat
  event : DragEvent
deriving DecidableEq, Repr

/-- The page's event listeners: given the element an event is dispatched on,
the event, and the current document, a handler returns the updated document
and the updated contents of the shared `DataTransfer` container (a handler
that does not call `setData` returns the event's container unchanged). -/
def Handlers : Type :=
  Nat → DragEvent → Doc → Doc × DataTransfer

/-- Model of one `el.dispatchEvent(new DragEvent(ty, ...))` call: builds the
event with `bubbles: true`, runs the page handler, and records the dispatch
in the trace. -/
def dispatchOn (H : Handlers) (i : Nat) (ty : DragEventType)
    (dt : DataTransfer) (d : Doc) : Doc × DataTransfer × Dispatched :=
  let ev : DragEvent := ⟨ty, dt, true⟩
  let r := H i ev d
  (r.1, r.2, ⟨i, ev⟩)

/-- The `cy.dragAndDrop(sourceSelector, targetSelector)` custom command of
`cypress/support/commands.ts`: resolve the source element, resolve the target
element (either resolution failing upstream when the element is absent),
create a fresh `DataTransfer`, store the source element's `innerHTML` under
the key "text/html", then dispatch dragstart on the source, dragover on the target,
drop on the target and dragend on the source, every event built with the same
container and `bubbles: true`.  Returns the final document and the trace of
the four dispatches. -/
def dragAndDrop (H : Handlers) (d : Doc) (src tgt : Nat) :
    Option (Doc × List Dispatched) :=
  match d.find src with
  | none => none
  | some sourceEl =>
    match d.find tgt with
    | none => none
    | some _ =>
      let dt0 := DataTransfer.mk0.setData "text/html" sourceEl.innerHTML
      let r1 := dispatchOn H src .dragstart dt0 d
      let r2 := dispatchOn H tgt .dragover r1.2.1 r1.1
      let r3 := dispatchOn H tgt .drop r2.2.1 r2.1
      let r4 := dispatchOn H src .dragend r3.2.1 r3.1
      some (r4.1, [r1.2.2, r2.2.2, r3.2.2, r4.2.2])

/-- Handlers that ignore all four events: no document change, no `setData`. -/
def noopHandlers : Handlers := fun _ ev d => (d, ev.dataTransfer)

/-- Modelled from the spec: the demo page's drag-and-drop script is not part
of this repository's source — only the dispatcher that drives it and the
tests that observe it are.  The spec describes "swap-on-drop handlers"
("The page's drop handler reads the DataTransfer data and swaps innerHTML
between the source and target elements: dragSrcEl.innerHTML = this.innerHTML;
this.innerHTML reads the container under text/html"): the dragstart
listener records the dragged element, the dragover listener only marks the
drop zone as valid, the drop listener swaps the recorded source's markup with
the drop target's markup through the container, and the dragend listener
clears the record. -/
def swapHandlers : Handlers := fun i ev d =>
  match ev.type with
  | .dragstart => ({ d with dragSrc := some i }, ev.dataTransfer)
  | .dragover => (d, ev.dataTransfer)
  | .drop =>
      match d.dragSrc with
      | none => (d, ev.dataTransfer)
      | some s =>
        match d.find i with
        | none => (d, ev.dataTransfer)
        | some te =>
          let d1 := (d.setInnerHTML s te.innerHTML).setInnerHTML i
            (ev.dataTransfer.getData "text/html")
          (d1, ev.dataTransfer)
  | .dragend => ({ d with dragSrc := none }, ev.dataTransfer)

/-- Predicate: the listeners mutate only the document, never the
`DataTransfer` container — every handler returns the container of the event
unchanged. -/
def PreservesDT (H : Handlers) : Prop :=
  ∀ i ev d, (H i ev d).2 = ev.dataTransfer

/-- Iteration of the dispatcher: `n` successive `cy.dragAndDrop` calls
between the same two positions (the body of the Multiple Swaps tests, which
repeat `dragDropPage.dragFirstToLast()`).  A call whose resolution fails
leaves the document unchanged. -/
def applyDrags (a b : Nat) : Nat → Doc → Doc
  | 0, d => d
  | n + 1, d =>
    match dragAndDrop swapHandlers d a b with
    | some r => applyDrags a b n r.1
    | none => d

/-- One page operation performed by a custom command: the primitive Cypress
action chains appearing in the bodies of the commands file. -/
inductive CyOp where
  | visit (url : String)
  | clearType (selector value : String)
  | click (selector : String)
  | shouldVisibleContainText (selector expected : String)
  | shouldVisibleHaveClass (selector expected : String)
deriving DecidableEq, Repr

/-- The `login` command of the first variant of the commands file (the one
without the third-party drag plugin import). -/
def loginV1 (username password : String) : List CyOp :=
  [.visit "/login",
   .clearType "#username" username,
   .clearType "#password" password,
   .click "button[type=\"submit\"]"]

/-- The `logout` command of the first variant of the commands file. -/
def logoutV1 : List CyOp :=
  [.click "a.button[href=\"/logout\"]"]

/-- The `verifyFlashMessage` command of the first variant of the commands
file. -/
def verifyFlashMessageV1 (expectedMessage : String) : List CyOp :=
  [.shouldVisibleContainText "#flash" expectedMessage]

/-- The `verifyFlashClass` command of the first variant of the commands
file. -/
def verifyFlashClassV1 (expectedClass : String) : List CyOp :=
  [.shouldVisibleHaveClass "#flash" expectedClass]

/-- The `login` command of the second variant of the commands file (the one
that imports the third-party drag plugin and adds `dragAndDrop`). -/
def loginV2 (username password : String) : List CyOp :=
  [.visit "/login",
   .clearType "#username" username,
   .clearType "#password" password,
   .click "button[type=\"submit\"]"]

/-- The `logout` command of the second variant of the commands file. -/
def logoutV2 : List CyOp :=
  [.click "a.button[href=\"/logout\"]"]

/-- The `verifyFlashMessage` command of the second variant of the commands
file. -/
def verifyFlashMessageV2 (expectedMessage : String) : List CyOp :=
  [.shouldVisibleContainText "#flash" expectedMessage]

/-- The `verifyFlashClass` command of the second variant of the commands
file. -/
def verifyFlashClassV2 (expectedClass : String) : List CyOp :=
  [.shouldVisibleHaveClass "#flash" expectedClass]

/-- A concrete document used to instantiate the theorems: the drag-and-drop
demo page with two columns containing markup "A" and "B". -/
def docAB : Doc :=
  { url := "https://the-internet.herokuapp.com/drag_and_drop"
    dragSrc := none
    elems := [(1, ⟨"A", [("draggable", "true")]⟩),
              (2, ⟨"B", [("draggable", "true")]⟩)] }

/-- Looking up the element just written by `setHTML`: the stored element with
its inner markup replaced. -/
theorem findElem_setHTML_self (l : List (Nat × Elem)) (i : Nat) (h : String) :
    findElem (setHTML l i h) i =
      (findElem l i).map (fun e => { e with innerHTML := h }) := by
  induction l with
  | nil => simp [findElem, setHTML]
  | cons p rest ih =>
    obtain ⟨j, e⟩ := p
    by_cases hji : j = i
    · subst hji
      simp [findElem, setHTML]
    · simp [findElem, setHTML, hji, ih]

/-- Writing the inner markup of one element leaves lookups of every other
element unchanged. -/
theorem findElem_setHTML_ne (l : List (Nat × Elem)) (i j : Nat) (h : String)
    (hij : j ≠ i) : findElem (setHTML l i h) j = findElem l j := by
  induction l with
  | nil => simp [setHTML]
  | cons p rest ih =>
    obtain ⟨k, e⟩ := p
    by_cases hk : k = i
    · subst hk
      have hkj : ¬(k = j) := fun hh => hij hh.symm
      simp [findElem, setHTML, hkj]
    · by_cases hkj : k = j
      · subst hkj
        simp [findElem, setHTML, hk]
      · simp [findElem, setHTML, hk, hkj, ih]

/-- Reading back the single payload stored in a fresh container. -/
theorem getData_setData_mk0 (k v : String) :
    (DataTransfer.mk0.setData k v).getData k = v := by
  simp [DataTransfer.mk0, DataTransfer.setData, DataTransfer.getData]

/-- Unfolding of a successful dispatch under listeners that never touch the
container: the four events, in order dragstart on the source, dragover and
drop on the target, dragend on the source, all bubbling and all carrying the
container built at dispatch start. -/
theorem dragAndDrop_trace_of_preservesDT (H : Handlers) (hH : PreservesDT H)
    (d : Doc) (s t : Nat) (ea eb : Elem)
    (hs : d.find s = some ea) (ht : d.find t = some eb) :
    ∃ d4 : Doc, dragAndDrop H d s t =
      some (d4,
        [⟨s, ⟨.dragstart, DataTransfer.mk0.setData "text/html" ea.innerHTML, true⟩⟩,
         ⟨t, ⟨.dragover, DataTransfer.mk0.setData "text/html" ea.innerHTML, true⟩⟩,
         ⟨t, ⟨.drop, DataTransfer.mk0.setData "text/html" ea.innerHTML, true⟩⟩,
         ⟨s, ⟨.dragend, DataTransfer.mk0.setData "text/html" ea.innerHTML, true⟩⟩]) := by
  refine ⟨(H s ⟨.dragend, DataTransfer.mk0.setData "text/html" ea.innerHTML, true⟩
    ((H t ⟨.drop, DataTransfer.mk0.setData "text/html" ea.innerHTML, true⟩
      ((H t ⟨.dragover, DataTransfer.mk0.setData "text/html" ea.innerHTML, true⟩
        ((H s ⟨.dragstart, DataTransfer.mk0.setData "text/html" ea.innerHTML, true⟩
          d).1)).1)).1)).1, ?_⟩
  have hH2 : ∀ i ev dd, (H i ev dd).2 = ev.dataTransfer := hH
  simp [dragAndDrop, hs, ht, dispatchOn, hH2]

/-- Unfolding of a successful dispatch under the swap-on-drop listeners: the
final document has the two inner markups exchanged, the pending drag source
cleared, and everything else unchanged. -/
theorem dragAndDrop_swapHandlers_eq (d : Doc) (a b : Nat) (ea eb : Elem)
    (ha : d.find a = some ea) (hb : d.find b = some eb) :
    dragAndDrop swapHandlers d a b =
      some (⟨d.url, none, setHTML (setHTML d.elems a eb.innerHTML) b ea.innerHTML⟩,
        [⟨a, ⟨.dragstart, DataTransfer.mk0.setData "text/html" ea.innerHTML, true⟩⟩,
         ⟨b, ⟨.dragover, DataTransfer.mk0.setData "text/html" ea.innerHTML, true⟩⟩,
         ⟨b, ⟨.drop, DataTransfer.mk0.setData "text/html" ea.innerHTML, true⟩⟩,
         ⟨a, ⟨.dragend, DataTransfer.mk0.setData "text/html" ea.innerHTML, true⟩⟩]) := by
  have hb1 : Doc.find { d with dragSrc := some a } b = some eb := hb
  simp [dragAndDrop, ha, hb, hb1, dispatchOn, swapHandlers, Doc.setInnerHTML,
    getData_setData_mk0]

/-- Contents of the document after one dispatch under the swap-on-drop
listeners: the two elements exchange inner markup, every other element, the
URL and the attributes are untouched, and no drag source stays pending. -/
theorem dragAndDrop_swapHandlers_find (d : Doc) (a b : Nat) (ea eb : Elem)
    (hab : a ≠ b) (ha : d.find a = some ea) (hb : d.find b = some eb) :
    ∃ (d1 : Doc) (tr : List Dispatched),
      dragAndDrop swapHandlers d a b = some (d1, tr) ∧
      d1.find a = some { ea with innerHTML := eb.innerHTML } ∧
      d1.find b = some { eb with innerHTML := ea.innerHTML } ∧
      d1.url = d.url ∧ d1.dragSrc = none ∧
      ∀ j, j ≠ a → j ≠ b → d1.find j = d.find j := by
  refine ⟨_, _, dragAndDrop_swapHandlers_eq d a b ea eb ha hb, ?_, ?_, rfl, rfl, ?_⟩
  · have ha2 : findElem d.elems a = some ea := ha
    show findElem (setHTML (setHTML d.elems a eb.innerHTML) b ea.innerHTML) a = _
    rw [findElem_setHTML_ne _ _ _ _ hab, findElem_setHTML_self, ha2]
    rfl
  · have hb2 : findElem d.elems b = some eb := hb
    show findElem (setHTML (setHTML d.elems a eb.innerHTML) b ea.innerHTML) b = _
    rw [findElem_setHTML_self, findElem_setHTML_ne _ _ _ _ (Ne.symm hab), hb2]
    rfl
  · intro j hja hjb
    show findElem (setHTML (setHTML d.elems a eb.innerHTML) b ea.innerHTML) j = _
    rw [findElem_setHTML_ne _ _ _ _ hjb, findElem_setHTML_ne _ _ _ _ hja]
    rfl

/-- C1: for every pair of source and target elements already present in the
document, one invocation of the dragAndDrop command dispatches exactly four
events, in the strict order drag-start on the source, drag-over on the
target, drop on the target, drag-end on the source, each of the four events
carrying the same transfer-data container and created with bubbles set to
true (stated over listeners that do not themselves rewrite the container). -/
theorem dragAndDrop_four_events_in_order (H : Handlers) (hH : PreservesDT H)
    (d : Doc) (s t : Nat) (ea eb : Elem)
    (hs : d.find s = some ea) (ht : d.find t = some eb) :
    ∃ d4 : Doc, dragAndDrop H d s t =
      some (d4,
        [⟨s, ⟨.dragstart, DataTransfer.mk0.setData "text/html" ea.innerHTML, true⟩⟩,
         ⟨t, ⟨.dragover, DataTransfer.mk0.setData "text/html" ea.innerHTML, true⟩⟩,
         ⟨t, ⟨.drop, DataTransfer.mk0.setData "text/html" ea.innerHTML, true⟩⟩,
         ⟨s, ⟨.dragend, DataTransfer.mk0.setData "text/html" ea.innerHTML, true⟩⟩]) :=
  dragAndDrop_trace_of_preservesDT H hH d s t ea eb hs ht

/-- Witness for C1: the four-event trace on the concrete two-column document,
with listeners that ignore all events. -/
theorem dragAndDrop_four_events_in_order_witness :
    ∃ d4 : Doc, dragAndDrop noopHandlers docAB 1 2 =
      some (d4,
        [⟨1, ⟨.dragstart, DataTransfer.mk0.setData "text/html" "A", true⟩⟩,
         ⟨2, ⟨.dragover, DataTransfer.mk0.setData "text/html" "A", true⟩⟩,
         ⟨2, ⟨.drop, DataTransfer.mk0.setData "text/html" "A", true⟩⟩,
         ⟨1, ⟨.dragend, DataTransfer.mk0.setData "text/html" "A", true⟩⟩]) :=
  dragAndDrop_four_events_in_order noopHandlers (fun _ _ _ => rfl) docAB 1 2
    ⟨"A", [("draggable", "true")]⟩ ⟨"B", [("draggable", "true")]⟩ rfl rfl

/-- C2: the string stored in the transfer-data container under the
"text/html" key and read during the drop event equals the source element's
inner markup exactly as it existed immediately before the drag-start event
was dispatched, and no document mutation performed by the drag-start handler
or any later handler changes that stored string. -/
theorem dragAndDrop_drop_reads_captured_markup (H : Handlers)
    (hH : PreservesDT H) (d : Doc) (s t : Nat) (ea eb : Elem)
    (hs : d.find s = some ea) (ht : d.find t = some eb) :
    ∃ (d4 : Doc) (tr : List Dispatched),
      dragAndDrop H d s t = some (d4, tr) ∧
      (∃ e ∈ tr, e.event.type = .drop) ∧
      ∀ e ∈ tr, e.event.type = .drop →
        e.event.dataTransfer.getData "text/html" = ea.innerHTML := by
  obtain ⟨d4, h4⟩ := dragAndDrop_trace_of_preservesDT H hH d s t ea eb hs ht
  refine ⟨d4, _, h4, ?_, ?_⟩
  · exact ⟨⟨t, ⟨.drop, DataTransfer.mk0.setData "text/html" ea.innerHTML, true⟩⟩,
      by simp, rfl⟩
  · intro e he hty
    simp only [List.mem_cons, List.not_mem_nil, or_false] at he
    rcases he with rfl | rfl | rfl | rfl
    · simp at hty
    · simp at hty
    · exact getData_setData_mk0 _ _
    · simp at hty

/-- Witness for C2 on the concrete two-column document, with listeners that
ignore all events. -/
theorem dragAndDrop_drop_reads_captured_markup_witness :
    ∃ (d4 : Doc) (tr : List Dispatched),
      dragAndDrop noopHandlers docAB 1 2 = some (d4, tr) ∧
      (∃ e ∈ tr, e.event.type = .drop) ∧
      ∀ e ∈ tr, e.event.type = .drop →
        e.event.dataTransfer.getData "text/html" = "A" :=
  dragAndDrop_drop_reads_captured_markup noopHandlers (fun _ _ _ => rfl)
    docAB 1 2 ⟨"A", [("draggable", "true")]⟩ ⟨"B", [("draggable", "true")]⟩
    rfl rfl

/-- C5: the dispatcher has no internal failure branch: the call fails exactly
when the resolution of one of the two selectors fails (in particular for a
detached, not-in-document element), and whenever both elements resolve it
completes the four-event sequence, whatever the handlers do. -/
theorem dragAndDrop_no_internal_failure (H : Handlers) (d : Doc) (s t : Nat) :
    (dragAndDrop H d s t = none ↔ (d.find s = none ∨ d.find t = none)) ∧
    ∀ d4 tr, dragAndDrop H d s t = some (d4, tr) → tr.length = 4 := by
  constructor
  · cases hs : d.find s with
    | none => simp [dragAndDrop, hs]
    | some ea =>
      cases ht : d.find t with
      | none => simp [dragAndDrop, hs, ht]
      | some eb => simp [dragAndDrop, hs, ht, dispatchOn]
  · intro d4 tr h
    cases hs : d.find s with
    | none => simp [dragAndDrop, hs] at h
    | some ea =>
      cases ht : d.find t with
      | none => simp [dragAndDrop, hs, ht] at h
      | some eb =>
        simp only [dragAndDrop, hs, ht, dispatchOn, Option.some.injEq,
          Prod.mk.injEq] at h
        obtain ⟨-, h2⟩ := h
        rw [← h2]
        rfl

/-- Witness for C5: the dispatcher succeeds on the concrete two-column
document exactly when both elements resolve. -/
theorem dragAndDrop_no_internal_failure_witness :
    (dragAndDrop noopHandlers docAB 1 2 = none ↔
      (docAB.find 1 = none ∨ docAB.find 2 = none)) ∧
    ∀ d4 tr, dragAndDrop noopHandlers docAB 1 2 = some (d4, tr) →
      tr.length = 4 :=
  dragAndDrop_no_internal_failure noopHandlers docAB 1 2

/-- C6: throughout one invocation the transfer-data payload is a single
container created at dispatch start and holding exactly one key, "text/html",
mapped to the source element's serialized inner markup at drag-start time;
the one-key property holds at each of the four dispatched events (stated over
listeners that do not themselves rewrite the container). -/
theorem dragAndDrop_payload_single_key (H : Handlers) (hH : PreservesDT H)
    (d : Doc) (s t : Nat) (ea eb : Elem)
    (hs : d.find s = some ea) (ht : d.find t = some eb) :
    ∃ (d4 : Doc) (tr : List Dispatched),
      dragAndDrop H d s t = some (d4, tr) ∧ tr.length = 4 ∧
      ∀ e ∈ tr, e.event.dataTransfer.entries = [("text/html", ea.innerHTML)] := by
  obtain ⟨d4, h4⟩ := dragAndDrop_trace_of_preservesDT H hH d s t ea eb hs ht
  refine ⟨d4, _, h4, rfl, ?_⟩
  intro e he
  simp only [List.mem_cons, List.not_mem_nil, or_false] at he
  rcases he with rfl | rfl | rfl | rfl <;> rfl

/-- Witness for C6 on the concrete two-column document, with listeners that
ignore all events. -/
theorem dragAndDrop_payload_single_key_witness :
    ∃ (d4 : Doc) (tr : List Dispatched),
      dragAndDrop noopHandlers docAB 1 2 = some (d4, tr) ∧ tr.length = 4 ∧
      ∀ e ∈ tr, e.event.dataTransfer.entries = [("text/html", "A")] :=
  dragAndDrop_payload_single_key noopHandlers (fun _ _ _ => rfl) docAB 1 2
    ⟨"A", [("draggable", "true")]⟩ ⟨"B", [("draggable", "true")]⟩ rfl rfl

/-- C7: the dispatcher has no side effects beyond the four dispatched events:
when the attached handlers are no-ops, the whole document — its URL, its
elements, their contents and attributes — is returned exactly as it was, so
any state change after a call is attributable solely to the page handlers. -/
theorem dragAndDrop_noop_preserves_document (d : Doc) (s t : Nat)
    (ea eb : Elem) (hs : d.find s = some ea) (ht : d.find t = some eb) :
    ∃ tr : List Dispatched, dragAndDrop noopHandlers d s t = some (d, tr) := by
  refine ⟨[⟨s, ⟨.dragstart, DataTransfer.mk0.setData "text/html" ea.innerHTML, true⟩⟩,
           ⟨t, ⟨.dragover, DataTransfer.mk0.setData "text/html" ea.innerHTML, true⟩⟩,
           ⟨t, ⟨.drop, DataTransfer.mk0.setData "text/html" ea.innerHTML, true⟩⟩,
           ⟨s, ⟨.dragend, DataTransfer.mk0.setData "text/html" ea.innerHTML, true⟩⟩],
    ?_⟩
  simp [dragAndDrop, hs, ht, dispatchOn, noopHandlers]

/-- Witness for C7: on the concrete two-column document, no-op handlers leave
the document identical. -/
theorem dragAndDrop_noop_preserves_document_witness :
    ∃ tr : List Dispatched,
      dragAndDrop noopHandlers docAB 1 2 = some (docAB, tr) :=
  dragAndDrop_noop_preserves_document docAB 1 2
    ⟨"A", [("draggable", "true")]⟩ ⟨"B", [("draggable", "true")]⟩ rfl rfl

/-- C8: each dispatcher call is stateless between invocations: its whole
outcome, final document and dispatched event sequence with payloads alike, is
a function of the current document alone, so two invocations made from
identical document states produce identical event sequences with identical
payloads. -/
theorem dragAndDrop_two_run_determinism (H : Handlers) (d₁ d₂ : Doc)
    (s t : Nat) (h : d₁ = d₂) :
    dragAndDrop H d₁ s t = dragAndDrop H d₂ s t := by
  rw [h]

/-- Witness for C8 at the concrete two-column document. -/
theorem dragAndDrop_two_run_determinism_witness :
    dragAndDrop noopHandlers docAB 1 2 = dragAndDrop noopHandlers docAB 1 2 :=
  dragAndDrop_two_run_determinism noopHandlers docAB docAB 1 2 rfl

/-- C3: for two elements with swap-on-drop handlers where the source contains
"A" and the target contains "B", one dispatch in direction (A, B) leaves the
source containing "B" and the target containing "A", and a second dispatch in
the same direction restores the original pairing. -/
theorem dragAndDrop_double_swap_roundtrip (d : Doc) (a b : Nat) (ea eb : Elem)
    (hab : a ≠ b) (ha : d.find a = some ea) (hA : ea.innerHTML = "A")
    (hb : d.find b = some eb) (hB : eb.innerHTML = "B") :
    ∃ (d1 d2 : Doc) (tr1 tr2 : List Dispatched),
      dragAndDrop swapHandlers d a b = some (d1, tr1) ∧
      (∃ ea1 eb1 : Elem, d1.find a = some ea1 ∧ ea1.innerHTML = "B" ∧
        d1.find b = some eb1 ∧ eb1.innerHTML = "A") ∧
      dragAndDrop swapHandlers d1 a b = some (d2, tr2) ∧
      (∃ ea2 eb2 : Elem, d2.find a = some ea2 ∧ ea2.innerHTML = "A" ∧
        d2.find b = some eb2 ∧ eb2.innerHTML = "B") := by
  obtain ⟨d1, tr1, h1, hfa1, hfb1, -, -, -⟩ :=
    dragAndDrop_swapHandlers_find d a b ea eb hab ha hb
  obtain ⟨d2, tr2, h2, hfa2, hfb2, -, -, -⟩ :=
    dragAndDrop_swapHandlers_find d1 a b _ _ hab hfa1 hfb1
  exact ⟨d1, d2, tr1, tr2, h1, ⟨_, _, hfa1, hB, hfb1, hA⟩, h2,
    ⟨_, _, hfa2, hA, hfb2, hB⟩⟩

/-- Witness for C3 at the concrete two-column document with contents "A" and
"B". -/
theorem dragAndDrop_double_swap_roundtrip_witness :
    ∃ (d1 d2 : Doc) (tr1 tr2 : List Dispatched),
      dragAndDrop swapHandlers docAB 1 2 = some (d1, tr1) ∧
      (∃ ea1 eb1 : Elem, d1.find 1 = some ea1 ∧ ea1.innerHTML = "B" ∧
        d1.find 2 = some eb1 ∧ eb1.innerHTML = "A") ∧
      dragAndDrop swapHandlers d1 1 2 = some (d2, tr2) ∧
      (∃ ea2 eb2 : Elem, d2.find 1 = some ea2 ∧ ea2.innerHTML = "A" ∧
        d2.find 2 = some eb2 ∧ eb2.innerHTML = "B") :=
  dragAndDrop_double_swap_roundtrip docAB 1 2
    ⟨"A", [("draggable", "true")]⟩ ⟨"B", [("draggable", "true")]⟩
    (by decide) rfl rfl rfl rfl

/-- C4: for every natural number n, n successive dispatcher calls between the
same two positions with swap-on-drop handlers leave the two positions swapped
relative to the initial state when n is odd, and restore the initial state
when n is even. -/
theorem applyDrags_parity (a b : Nat) (hab : a ≠ b) :
    ∀ (n : Nat) (d : Doc) (ea eb : Elem),
      d.find a = some ea → d.find b = some eb →
      (applyDrags a b n d).find a =
        some { ea with innerHTML :=
          if n % 2 = 0 then ea.innerHTML else eb.innerHTML } ∧
      (applyDrags a b n d).find b =
        some { eb with innerHTML :=
          if n % 2 = 0 then eb.innerHTML else ea.innerHTML } := by
  intro n
  induction n with
  | zero =>
    intro d ea eb ha hb
    constructor
    · simpa [applyDrags] using ha
    · simpa [applyDrags] using hb
  | succ n ih =>
    intro d ea eb ha hb
    obtain ⟨d1, tr1, h1, hfa1, hfb1, -, -, -⟩ :=
      dragAndDrop_swapHandlers_find d a b ea eb hab ha hb
    have hstep : applyDrags a b (n + 1) d = applyDrags a b n d1 := by
      simp [applyDrags, h1]
    obtain ⟨ih1, ih2⟩ := ih d1 _ _ hfa1 hfb1
    rw [hstep]
    by_cases hn : n % 2 = 0
    · have hn1 : ¬((n + 1) % 2 = 0) := by omega
      constructor
      · rw [ih1]; simp [hn, hn1]
      · rw [ih2]; simp [hn, hn1]
    · have hn1 : (n + 1) % 2 = 0 := by omega
      constructor
      · rw [ih1]; simp [hn, hn1]
      · rw [ih2]; simp [hn, hn1]

/-- Witness for C4: three successive calls on the concrete two-column
document end in the swapped state. -/
theorem applyDrags_parity_witness :
    (applyDrags 1 2 3 docAB).find 1 = some ⟨"B", [("draggable", "true")]⟩ ∧
    (applyDrags 1 2 3 docAB).find 2 = some ⟨"A", [("draggable", "true")]⟩ :=
  applyDrags_parity 1 2 (by decide) 3 docAB
    ⟨"A", [("draggable", "true")]⟩ ⟨"B", [("draggable", "true")]⟩ rfl rfl

/-- C10: a single dispatcher call with swap-on-drop handlers is
direction-symmetric: dispatching (first, last) and dispatching (last, first)
from the same initial state produce the same final state, in which each
element holds the other element's original content. -/
theorem dragAndDrop_direction_symmetric (d : Doc) (a b : Nat) (ea eb : Elem)
    (hab : a ≠ b) (ha : d.find a = some ea) (hb : d.find b = some eb) :
    ∃ (d1 d2 : Doc) (tr1 tr2 : List Dispatched),
      dragAndDrop swapHandlers d a b = some (d1, tr1) ∧
      dragAndDrop swapHandlers d b a = some (d2, tr2) ∧
      d1.find a = some { ea with innerHTML := eb.innerHTML } ∧
      d1.find b = some { eb with innerHTML := ea.innerHTML } ∧
      (∀ j, d1.find j = d2.find j) ∧
      d1.url = d2.url ∧ d1.dragSrc = d2.dragSrc := by
  obtain ⟨d1, tr1, h1, hfa1, hfb1, hu1, hds1, ho1⟩ :=
    dragAndDrop_swapHandlers_find d a b ea eb hab ha hb
  obtain ⟨d2, tr2, h2, hfb2, hfa2, hu2, hds2, ho2⟩ :=
    dragAndDrop_swapHandlers_find d b a eb ea (Ne.symm hab) hb ha
  refine ⟨d1, d2, tr1, tr2, h1, h2, hfa1, hfb1, ?_,
    by rw [hu1, hu2], by rw [hds1, hds2]⟩
  intro j
  by_cases hja : j = a
  · subst hja
    rw [hfa1, hfa2]
  · by_cases hjb : j = b
    · subst hjb
      rw [hfb1, hfb2]
    · rw [ho1 j hja hjb, ho2 j hjb hja]

/-- Witness for C10 at the concrete two-column document. -/
theorem dragAndDrop_direction_symmetric_witness :
    ∃ (d1 d2 : Doc) (tr1 tr2 : List Dispatched),
      dragAndDrop swapHandlers docAB 1 2 = some (d1, tr1) ∧
      dragAndDrop swapHandlers docAB 2 1 = some (d2, tr2) ∧
      d1.find 1 = some ⟨"B", [("draggable", "true")]⟩ ∧
      d1.find 2 = some ⟨"A", [("draggable", "true")]⟩ ∧
      (∀ j, d1.find j = d2.find j) ∧
      d1.url = d2.url ∧ d1.dragSrc = d2.dragSrc :=
  dragAndDrop_direction_symmetric docAB 1 2
    ⟨"A", [("draggable", "true")]⟩ ⟨"B", [("draggable", "true")]⟩
    (by decide) rfl rfl

/-- C9: the two variants of the custom-commands file kept in the repository
define behaviourally identical login, logout, verifyFlashMessage and
verifyFlashClass commands: for every input, each command of one variant
performs exactly the same sequence of page operations as the same-named
command of the other variant. -/
theorem commands_variants_equivalent :
    (∀ username password : String,
      loginV1 username password = loginV2 username password) ∧
    logoutV1 = logoutV2 ∧
    (∀ expectedMessage : String,
      verifyFlashMessageV1 expectedMessage =
        verifyFlashMessageV2 expectedMessage) ∧
    (∀ expectedClass : String,
      verifyFlashClassV1 expectedClass = verifyFlashClassV2 expectedClass) :=
  ⟨fun _ _ => rfl, rfl, fun _ => rfl, fun _ => rfl⟩

end CypressFramework
